import Mathlib

/-!
Verification development for the credential/secret configuration subsystem of
a dbt-duckdb fork, together with the playio storage plugin.

The credential model (secret specs, attachment specs, settings resolution and
database-name inference) is exercised by the unit tests in
tests/unit/test_credentials.py; the implementation module itself is not part
of the sources, so those definitions are modelled from the specification
(with constants pinned by the unit tests, which are source code).  The playio
plugin definitions are translated directly from
dbt/adapters/duckdb/plugins/playio.py.

Raw configuration mappings are modelled as insertion-ordered association
lists of string keys, matching the insertion ordering of Python dicts.
-/

namespace DbtDuckdb

/-- Python str.join: joins a list of strings with a separator, empty list
gives the empty string. -/
def join_with (sep : String) : List String → String
  | [] => ""
  | a :: rest => rest.foldl (fun acc x => acc ++ sep ++ x) a

/-- Python str.upper, character by character. -/
def str_upper (s : String) : String :=
  String.mk (s.data.map Char.toUpper)

/-- Python str.endswith: the candidate suffix closes the string. -/
def ends_with (s suffix : String) : Bool :=
  List.isSuffixOf suffix.data s.data

/-- Python str.startswith: the candidate opening starts the string. -/
def starts_with (s opening : String) : Bool :=
  List.isPrefixOf opening.data s.data

/-- Split a character list at every occurrence of a separator character;
always returns at least one (possibly empty) part. -/
def split_char (c : Char) : List Char → List (List Char)
  | [] => [[]]
  | x :: xs =>
    match split_char c xs with
    | [] => if x = c then [[], []] else [[x]]
    | h :: t => if x = c then [] :: h :: t else (x :: h) :: t

/-- Join character-list parts with a separator character. -/
def join_chars (c : Char) : List (List Char) → List Char
  | [] => []
  | a :: rest => rest.foldl (fun acc x => acc ++ [c] ++ x) a

/-! ## Secret specifications (modelled from the spec, anchored by the tests) -/

/-- Modelled from the spec: the closed set of supported secret kinds.  The
spec names S3 and AZURE as the kinds with fixed allow-lists; the unit tests
exercise exactly these two, so the model closes the set over them. -/
inductive SecretType
  | S3
  | AZURE
deriving DecidableEq

/-- The enum member name, as compared by the tests (type.name == "S3"). -/
def SecretType.sqlName : SecretType → String
  | .S3 => "S3"
  | .AZURE => "AZURE"

/-- Modelled from the spec: mapping a raw type string to a supported secret
kind; any string outside the closed set is unsupported.  The tests supply
the lower-case strings "s3" and "azure". -/
def parseSecretType (s : String) : Option SecretType :=
  if s = "s3" then some SecretType.S3
  else if s = "azure" then some SecretType.AZURE
  else none

/-- Modelled from the spec: the per-type field allow-lists (minimum required
set given verbatim in the spec). -/
def SecretType.allowedFields : SecretType → List String
  | .S3 => ["key_id", "secret", "region", "session_token", "endpoint", "url_style", "use_ssl"]
  | .AZURE => ["provider", "tenant_id", "client_id", "client_secret",
      "client_certificate_path", "account_name", "connection_string"]

/-- A raw configuration mapping: insertion-ordered string-keyed entries. -/
abbrev RawMap := List (String × String)

/-- Modelled from the spec: validation failures raised at construction time. -/
inductive ValidationError
  | missingType
  | unsupportedType (t : String)
  | disallowedField (k : String)
deriving DecidableEq

/-- Modelled from the spec: a validated secret specification.  The field list
keeps insertion order of the supplied fields. -/
structure SecretSpec where
  type : SecretType
  name : String
  fields : List (String × String)
deriving DecidableEq

/-- The keys of a raw secret mapping that are not credential fields. -/
def specialKeys : List String := ["type", "name"]

/-- Modelled from the spec: when provider is service_principal, a
client_certificate_path without a .pem suffix has .pem appended before
storing. -/
def normalize_cert_path (p : String) : String :=
  if ends_with p ".pem" then p else p ++ ".pem"

/-- Modelled from the spec: constructing a SecretSpec from a raw mapping.
Fails with ValidationError when the type key is absent or unsupported, or
when any supplied field key is outside the allow-list of the type; on the
AZURE service_principal path the certificate path is normalized before
storing. -/
def SecretSpec.construct (raw : RawMap) : Except ValidationError SecretSpec :=
  match List.lookup "type" raw with
  | none => Except.error ValidationError.missingType
  | some t =>
    match parseSecretType t with
    | none => Except.error (ValidationError.unsupportedType t)
    | some ty =>
      let nm := (List.lookup "name" raw).getD ""
      let flds := raw.filter (fun kv => !(specialKeys.contains kv.1))
      match flds.find? (fun kv => !(ty.allowedFields.contains kv.1)) with
      | some kv => Except.error (ValidationError.disallowedField kv.1)
      | none =>
        let flds :=
          if ty = SecretType.AZURE ∧ List.lookup "provider" flds = some "service_principal"
          then flds.map (fun kv =>
            if kv.1 = "client_certificate_path" then (kv.1, normalize_cert_path kv.2) else kv)
          else flds
        Except.ok ⟨ty, nm, flds⟩

/-- Modelled from the spec: the fixed emission order of AZURE fields. -/
def azure_field_order : List String :=
  ["provider", "account_name", "tenant_id", "client_id", "client_certificate_path"]

/-- Modelled from the spec: the fields of a spec in emission order.  S3
emits in insertion order of the supplied fields; AZURE emits per the fixed
order table, omitting absent fields. -/
def SecretSpec.ordered_fields (s : SecretSpec) : List (String × String) :=
  match s.type with
  | .S3 => s.fields
  | .AZURE => azure_field_order.filterMap
      (fun k => (List.lookup k s.fields).map (fun v => (k, v)))

/-- Modelled from the spec: the value casing transformation applied during
rendering — for AZURE the provider value is upper-cased, every other value
is emitted verbatim. -/
def transform_value (ty : SecretType) (k v : String) : String :=
  if ty = SecretType.AZURE ∧ k = "provider" then str_upper v else v

/-- Modelled from the spec: rendering a validated secret to SQL.  Empty name
gives CREATE SECRET, non-empty name gives CREATE OR REPLACE SECRET with the
name; the first line is the type with its value upper-cased, then the field
lines in emission order. -/
def SecretSpec.to_sql (s : SecretSpec) : String :=
  let header := if s.name = "" then "CREATE SECRET" else "CREATE OR REPLACE SECRET " ++ s.name
  let lines := ("type " ++ str_upper s.type.sqlName) ::
    s.ordered_fields.map (fun kv => kv.1 ++ " " ++ transform_value s.type kv.1 kv.2)
  header ++ " (\n    " ++ join_with ",\n    " lines ++ "\n)"

/-- The rendered field lines of a spec, one leading line separator each. -/
def SecretSpec.field_lines (s : SecretSpec) : String :=
  String.join (s.ordered_fields.map
    (fun kv => ",\n    " ++ (kv.1 ++ " " ++ transform_value s.type kv.1 kv.2)))

/-- The precondition of claim C1 on a raw secret mapping, as a computable
predicate: the type key is absent, or names an unsupported kind, or some
supplied field key is outside the allow-list of the type. -/
def bad_secret_raw (raw : RawMap) : Bool :=
  match List.lookup "type" raw with
  | none => true
  | some t =>
    match parseSecretType t with
    | none => true
    | some ty => raw.any (fun kv =>
        !(specialKeys.contains kv.1) && !(ty.allowedFields.contains kv.1))

/-! ## Attachments (modelled from the spec, anchored by the tests) -/

/-- Modelled from the spec: a validated database attachment descriptor. -/
structure Attachment where
  path : String
  «alias» : Option String := none
  read_only : Bool := false
  type : Option String := none
deriving DecidableEq

/-- Modelled from the spec: render the ATTACH statement.  Base form quotes
the path; the alias clause is appended when an alias is present; the option
clause collects TYPE then READ_ONLY in fixed order, comma separated, and is
omitted entirely when both are unset. -/
def Attachment.to_sql (a : Attachment) : String :=
  let base := "ATTACH \x27" ++ a.path ++ "\x27"
  let base :=
    match a.«alias» with
    | some al => base ++ " AS " ++ al
    | none => base
  let opts :=
    (match a.type with
     | some t => ["TYPE " ++ t]
     | none => []) ++
    (if a.read_only then ["READ_ONLY"] else [])
  match opts with
  | [] => base
  | _ => base ++ " (" ++ join_with ", " opts ++ ")"

/-! ## Database-name inference (modelled from the spec, anchored by tests) -/

/-- Modelled from the spec: the fixed in-memory sentinel database name. -/
def memory_db_name : String := "memory"

/-- Modelled from the spec: the fixed default catalog name substituted when
an md: connection string carries an empty catalog name; the unit tests pin
it to my_db. -/
def default_catalog_name : String := "my_db"

/-- Modelled from the spec: the fixed fallback database name for remote
connection blocks without an explicit database field.  The spec fixes its
existence but neither the spec nor the tests pin the value. -/
def remote_fallback_db_name : String := "remote_db"

/-- The filename part of a path: everything after the last slash. -/
def path_basename (p : String) : String :=
  String.mk ((split_char '/' p.data).getLastD p.data)

/-- Strip the last dot-extension from a filename, keeping earlier dots. -/
def path_stem (s : String) : String :=
  match split_char '.' s.data with
  | [] => s
  | [_] => s
  | parts => String.mk (join_chars '.' parts.dropLast)

/-- The raw-mapping shape relevant to database-name inference: an optional
explicit database, the presence of a remote block, and an optional path. -/
structure RawConfig where
  database : Option String := none
  remote : Bool := false
  path : Option String := none
deriving DecidableEq

/-- Modelled from the spec: first-match database-name inference.  Explicit
database wins; then a remote block falls back to the fixed remote name; then
an md: connection string has its catalog name extracted (empty replaced by
the default catalog name); then a local path contributes its filename stem;
otherwise the in-memory sentinel. -/
def infer_database_name (c : RawConfig) : String :=
  match c.database with
  | some d => d
  | none =>
    if c.remote then remote_fallback_db_name
    else
      match c.path with
      | none => memory_db_name
      | some p =>
        if starts_with p "md:" then
          let nm := String.mk ((p.data.drop 3).takeWhile (fun ch => ch ≠ '?'))
          if nm = "" then default_catalog_name else nm
        else path_stem (path_basename p)

/-! ## Credential resolution (modelled from the spec, anchored by tests) -/

/-- A settings value: the tests store both strings and integers. -/
inductive SettingValue
  | str (s : String)
  | int (n : Int)
deriving DecidableEq

/-- A settings mapping: insertion-ordered string-keyed entries. -/
abbrev Settings := List (String × SettingValue)

/-- Modelled from the spec: resolver failures — an unsupported provider
identifier is a configuration error; provider round-trip failures propagate. -/
inductive ResolverError
  | unsupportedProvider (p : String)
  | providerFailure
deriving DecidableEq

/-- Python dict assignment: replace the value in place when the key exists,
append the entry otherwise. -/
def upsert (m : Settings) (k : String) (v : SettingValue) : Settings :=
  if (List.lookup k m).isSome then
    m.map (fun kv => if kv.1 = k then (k, v) else kv)
  else m ++ [(k, v)]

/-- The credential-bearing part of the connection credentials object. -/
structure DuckDBCredentials where
  settings : Settings := []
  use_credential_provider : Option String := none
deriving DecidableEq

/-- Modelled from the spec: load_settings.  The external cloud-identity
round trip is modelled by the ambient parameter: some triple is the access
key, secret key and session token the provider returns, none is a provider
failure.  No provider passes the stored settings through; the aws provider
writes the three s3 session keys from the ambient identity (the test
fixture verifies the provider values win for those three keys); any other
provider identifier is a configuration error. -/
def load_settings (c : DuckDBCredentials)
    (ambient : Option (String × String × String)) : Except ResolverError Settings :=
  match c.use_credential_provider with
  | none => Except.ok c.settings
  | some p =>
    if p = "aws" then
      match ambient with
      | none => Except.error ResolverError.providerFailure
      | some (ak, sk, tok) =>
        Except.ok (upsert (upsert (upsert c.settings
          "s3_access_key_id" (SettingValue.str ak))
          "s3_secret_access_key" (SettingValue.str sk))
          "s3_session_token" (SettingValue.str tok))
    else Except.error (ResolverError.unsupportedProvider p)

/-! ## The playio plugin (translated from dbt/adapters/duckdb/plugins/playio.py) -/

/-- Python runtime errors that the modelled fragments can raise. -/
inductive PyError
  | keyError (k : String)
  | requiredArgs
deriving DecidableEq

/-- The option mapping for one storage entry of the plugin configuration. -/
abbrev StorageOpts := List (String × String)

/-- The plugin configuration: region name to storage name to options, with
string keys per the declared Dict type of the plugin. -/
abbrev PluginConfig := List (String × List (String × StorageOpts))

/-- The Python subscript chain plugin_config[region][storage]: subscripting
with None (a missing config value) or with a key that is not present raises
KeyError. -/
def lookup_opt (pc : PluginConfig) (region storage : Option String) :
    Except PyError StorageOpts :=
  match region with
  | none => Except.error (PyError.keyError "None")
  | some r =>
    match List.lookup r pc with
    | none => Except.error (PyError.keyError r)
    | some inner =>
      match storage with
      | none => Except.error (PyError.keyError "None")
      | some s =>
        match List.lookup s inner with
        | none => Except.error (PyError.keyError s)
        | some opts => Except.ok opts

/-- The opening of Plugin.store: read region and storage from the target
config, evaluate storage_type via the plugin-config subscript chain, and
only then run the check that raises the required-arguments message. -/
def store_storage_type (pc : PluginConfig) (config : List (String × String)) :
    Except PyError (Option String) :=
  let region := List.lookup "region" config
  let storage := List.lookup "storage" config
  match lookup_opt pc region storage with
  | Except.error e => Except.error e
  | Except.ok opts =>
    if storage = none ∨ region = none then Except.error PyError.requiredArgs
    else Except.ok (List.lookup "type" opts)

/-- The opening of Plugin.load: here the required-arguments check runs
before the plugin-config subscript chain. -/
def load_storage_type (pc : PluginConfig) (config : List (String × String)) :
    Except PyError (Option String) :=
  let storage := List.lookup "storage" config
  let region := List.lookup "region" config
  if storage = none ∨ region = none then Except.error PyError.requiredArgs
  else
    match lookup_opt pc region storage with
    | Except.error e => Except.error e
    | Except.ok opts => Except.ok (List.lookup "type" opts)

/-- The class-level default column definitions for RDS tables. -/
def rds_default_cols_init : List String :=
  ["id BIGINT PRIMARY KEY AUTO_INCREMENT not null",
   "created TIMESTAMP DEFAULT CURRENT_TIMESTAMP null",
   "updated TIMESTAMP DEFAULT CURRENT_TIMESTAMP ON UPDATE CURRENT_TIMESTAMP null"]

/-- The class-level dtype-to-MySQL-type mapping. -/
def rds_default_dtypes : List (String × String) :=
  [("int32", "BIGINT"), ("int64", "BIGINT"),
   ("float32", "DOUBLE"), ("float64", "DOUBLE"),
   ("object", "VARCHAR(512)"),
   ("datetime64[ns]", "DATETIME"), ("datetime64[ns, UTC]", "DATETIME"),
   ("timedelta64[ns]", "TIME"), ("bool", "BOOLEAN"),
   ("datetime.date", "DATE"), ("datetime.datetime", "DATETIME")]

/-- A dataframe column dtype, tagged by the branch of the dtype dispatch in
the column loop that it takes: pandas datetime64 dtype, first value a date
or datetime object, integer dtype, float dtype, or anything else with the
maximal string length of the column values. -/
inductive PandasDtype
  | datetime64
  | dateObj
  | datetimeObj
  | intLike
  | floatLike
  | objectLike (max_len : Nat)
deriving DecidableEq

/-- The MySQL type chosen for a column by the dtype dispatch: lookups into
the class-level dtype mapping, or VARCHAR sized at twice the maximal value
length. -/
def mysql_type_of (d : PandasDtype) : String :=
  match d with
  | .datetime64 => (List.lookup "datetime64[ns]" rds_default_dtypes).getD ""
  | .dateObj => (List.lookup "datetime.date" rds_default_dtypes).getD ""
  | .datetimeObj => (List.lookup "datetime.datetime" rds_default_dtypes).getD ""
  | .intLike => (List.lookup "int64" rds_default_dtypes).getD ""
  | .floatLike => (List.lookup "float64" rds_default_dtypes).getD ""
  | .objectLike max_len => "VARCHAR(" ++ toString (max_len * 2) ++ ")"

/-- A dataframe, as far as DDL generation reads it: column names with the
dtype tag of each column. -/
abbrev DataFrame := List (String × PandasDtype)

/-- The column DDL line built in the column loop. -/
def col_ddl (c : String × PandasDtype) : String :=
  "  " ++ c.1 ++ " " ++ mysql_type_of c.2

/-- The observable outcome of a call to create_table_if_needed: the returned
DDL (None when the table exists) and the value of the class attribute
holding the default columns after the call returns. -/
structure CreateResult where
  ddl : Option String
  rds_default_cols : List String
deriving DecidableEq

/-- Plugin.create_table_if_needed, with the table-existence query replaced
by the boolean it produces and the class attribute passed as explicit state.
In the branch where the table does not exist, the local ddl_cols is bound to
the class attribute object itself, so every append in the column loop and
the unique-constraint append also extends the class attribute: the returned
state reflects that aliasing.  The str-or-list normalization of the unique
and index column arguments is modelled by taking them as optional lists. -/
def create_table_if_needed (rds_default_cols : List String)
    (table_exists : Bool) (scheme table_name : String) (df : DataFrame)
    (uniq_cols index_cols : Option (List String)) : CreateResult :=
  if table_exists then ⟨none, rds_default_cols⟩
  else
    let ddl_cols := rds_default_cols ++ df.map col_ddl
    let ddl_cols :=
      match uniq_cols with
      | none => ddl_cols
      | some us => ddl_cols ++
          ["constraint uq_" ++ table_name ++ "_" ++ join_with "_" us ++
           " unique (" ++ join_with ", " us ++ ")"]
    let ddl_cols_str := join_with ",\n" ddl_cols
    let create_q := "\nCREATE TABLE " ++ scheme ++ "." ++ table_name ++
      " (\n    " ++ ddl_cols_str ++ "\n); \n"
    let index_ddl :=
      ["create index idx_created on " ++ scheme ++ "." ++ table_name ++ " (created);",
       "create index idx_updated on " ++ scheme ++ "." ++ table_name ++ " (updated);"]
    let index_ddl := index_ddl ++
      (match index_cols with
       | none => []
       | some is => is.map (fun idx =>
           "create index idx_" ++ idx ++ " on " ++ scheme ++ "." ++ table_name ++
           " (" ++ idx ++ ");"))
    let index_q := join_with "\n" index_ddl
    ⟨some (create_q ++ index_q), ddl_cols⟩

/-! ## Helper lemmas -/

theorem str_join_cons (a : String) (l : List String) :
    String.join (a :: l) = a ++ String.join l := by
  apply String.ext
  simp

theorem foldl_append_join (sep : String) (l : List String) :
    ∀ acc : String,
      l.foldl (fun a x => a ++ sep ++ x) acc =
        acc ++ String.join (l.map (fun x => sep ++ x)) := by
  induction l with
  | nil => intro acc; simp [String.join]
  | cons x xs ih =>
    intro acc
    rw [List.foldl_cons, ih, List.map_cons, str_join_cons]
    simp [String.append_assoc]

theorem join_with_cons (sep a : String) (l : List String) :
    join_with sep (a :: l) = a ++ String.join (l.map (fun x => sep ++ x)) := by
  rw [join_with, foldl_append_join]


theorem lookup_cons_self {β : Type} (a : String) (b : β) (l : List (String × β)) :
    List.lookup a ((a, b) :: l) = some b := by
  simp [List.lookup_cons]

theorem lookup_cons_ne {β : Type} {k a : String} (b : β) (l : List (String × β))
    (h : ¬ k = a) : List.lookup k ((a, b) :: l) = List.lookup k l := by
  have hb : (k == a) = false := beq_eq_false_iff_ne.mpr h
  simp [List.lookup_cons, hb]

theorem lookup_map_values {β : Type} (g : String → β → β) (k : String) :
    ∀ l : List (String × β),
      List.lookup k (l.map (fun kv => (kv.1, g kv.1 kv.2))) =
        (List.lookup k l).map (g k) := by
  intro l
  induction l with
  | nil => rfl
  | cons kv rest ih =>
    obtain ⟨a, b⟩ := kv
    by_cases h : k = a
    · subst h
      rw [List.map_cons, lookup_cons_self, lookup_cons_self]
      rfl
    · rw [List.map_cons, lookup_cons_ne _ _ h, lookup_cons_ne _ _ h, ih]

theorem lookup_filter_keep {β : Type} (P : String × β → Bool) (k : String)
    (hP : ∀ v, P (k, v) = true) :
    ∀ l : List (String × β),
      List.lookup k (l.filter P) = List.lookup k l := by
  intro l
  induction l with
  | nil => rfl
  | cons kv rest ih =>
    obtain ⟨a, b⟩ := kv
    by_cases h : k = a
    · subst h
      rw [List.filter_cons, if_pos (hP b), lookup_cons_self, lookup_cons_self]
    · rw [List.filter_cons]
      cases hkv : P (a, b) with
      | true =>
        rw [if_pos rfl, lookup_cons_ne _ _ h, lookup_cons_ne _ _ h, ih]
      | false =>
        simp only [Bool.false_eq_true, if_false]
        rw [lookup_cons_ne _ _ h, ih]

theorem lookup_map_set (k : String) (v : SettingValue) :
    ∀ m : Settings,
      List.lookup k (m.map (fun kv => if kv.1 = k then (k, v) else kv)) =
        (List.lookup k m).map (fun _ => v) := by
  intro m
  induction m with
  | nil => rfl
  | cons kv rest ih =>
    obtain ⟨a, b⟩ := kv
    by_cases h : a = k
    · subst h
      have hc : (a, b).1 = a := rfl
      rw [List.map_cons, if_pos hc, lookup_cons_self, lookup_cons_self]
      rfl
    · have h2 : ¬ k = a := fun hh => h hh.symm
      simp only [List.map_cons, if_neg h]
      rw [lookup_cons_ne _ _ h2, lookup_cons_ne _ _ h2, ih]

theorem lookup_map_set_other (k k2 : String) (v : SettingValue) (hne : ¬ k2 = k) :
    ∀ m : Settings,
      List.lookup k2 (m.map (fun kv => if kv.1 = k then (k, v) else kv)) =
        List.lookup k2 m := by
  intro m
  induction m with
  | nil => rfl
  | cons kv rest ih =>
    obtain ⟨a, b⟩ := kv
    by_cases h : a = k
    · subst h
      have hc : (a, b).1 = a := rfl
      rw [List.map_cons, if_pos hc, lookup_cons_ne _ _ hne, lookup_cons_ne _ _ hne, ih]
    · by_cases h2 : k2 = a
      · subst h2
        simp only [List.map_cons, if_neg h]
        rw [lookup_cons_self, lookup_cons_self]
      · simp only [List.map_cons, if_neg h]
        rw [lookup_cons_ne _ _ h2, lookup_cons_ne _ _ h2, ih]

theorem lookup_upsert_self (m : Settings) (k : String) (v : SettingValue) :
    List.lookup k (upsert m k v) = some v := by
  rw [upsert]
  by_cases h : (List.lookup k m).isSome
  · rw [if_pos h, lookup_map_set]
    obtain ⟨w, hw⟩ := Option.isSome_iff_exists.mp h
    rw [hw]; rfl
  · rw [if_neg h, List.lookup_append]
    have hnone : List.lookup k m = none := Option.not_isSome_iff_eq_none.mp h
    rw [hnone, lookup_cons_self]
    rfl

theorem lookup_upsert_other (m : Settings) (k k2 : String) (v : SettingValue)
    (hne : ¬ k2 = k) :
    List.lookup k2 (upsert m k v) = List.lookup k2 m := by
  rw [upsert]
  by_cases h : (List.lookup k m).isSome
  · rw [if_pos h, lookup_map_set_other k k2 v hne]
  · rw [if_neg h, List.lookup_append]
    have hk2 : List.lookup k2 [(k, v)] = none := by
      rw [lookup_cons_ne _ _ hne]; rfl
    rw [hk2]
    cases List.lookup k2 m <;> rfl


/-! ## Claim theorems -/

/-- C4: database-name inference satisfies the first-match precedence
explicit database, then remote block, then md: connection-string extraction
(empty name replaced by the default catalog name), then local-path filename
stem, then the fixed in-memory sentinel; the concrete inference cases of
the unit tests hold. -/
theorem infer_database_name_precedence :
    (∀ (d : String) (r : Bool) (p : Option String),
        infer_database_name ⟨some d, r, p⟩ = d) ∧
    (∀ p : Option String,
        infer_database_name ⟨none, true, p⟩ = remote_fallback_db_name) ∧
    infer_database_name ⟨none, false, none⟩ = "memory" ∧
    infer_database_name ⟨none, false, some "local.duckdb"⟩ = "local" ∧
    infer_database_name ⟨none, false, some "/tmp/f1234.db"⟩ = "f1234" ∧
    infer_database_name ⟨none, false, some "md:?token=abc123"⟩ = default_catalog_name ∧
    default_catalog_name = "my_db" ∧
    infer_database_name ⟨none, false, some "md:jaffle_shop?token=abc123"⟩ = "jaffle_shop" ∧
    infer_database_name ⟨some "memory", false, none⟩ = "memory" ∧
    infer_database_name ⟨some "remote", true, none⟩ = "remote" :=
  ⟨fun _ _ _ => rfl, fun _ => rfl, rfl, rfl, rfl, rfl, rfl, rfl, rfl, rfl⟩

/-- C8: with no credential provider configured, load_settings returns the
stored settings unchanged, independently of whatever the ambient identity
would have been; in particular the basic-settings unit test holds. -/
theorem load_settings_no_provider_identity :
    (∀ (st : Settings) (ambient : Option (String × String × String)),
        load_settings ⟨st, none⟩ ambient = Except.ok st) ∧
    load_settings ⟨[("s3_access_key_id", SettingValue.str "abc"),
        ("s3_secret_access_key", SettingValue.str "xyz"),
        ("s3_region", SettingValue.str "us-west-2")], none⟩ none =
      Except.ok [("s3_access_key_id", SettingValue.str "abc"),
        ("s3_secret_access_key", SettingValue.str "xyz"),
        ("s3_region", SettingValue.str "us-west-2")] :=
  ⟨fun _ _ => rfl, rfl⟩

/-- C9: in Plugin.store the branch raising the required-arguments message is
unreachable: for every plugin configuration and target config, the opening
of store either fails with a KeyError from the plugin-config subscript chain
or succeeds, never with the required-arguments error; in Plugin.load, where
the check precedes the subscript chain, a config missing both keys does
raise the required-arguments error. -/
theorem store_required_args_unreachable :
    (∀ (pc : PluginConfig) (config : List (String × String)),
        (∃ k, store_storage_type pc config = Except.error (PyError.keyError k)) ∨
        (∃ t, store_storage_type pc config = Except.ok t)) ∧
    load_storage_type [] [] = Except.error PyError.requiredArgs := by
  refine ⟨?_, rfl⟩
  intro pc config
  cases hr : List.lookup "region" config with
  | none =>
    exact Or.inl ⟨"None", by simp only [store_storage_type, lookup_opt, hr]⟩
  | some r =>
    cases hpc : List.lookup r pc with
    | none =>
      exact Or.inl ⟨r, by simp only [store_storage_type, lookup_opt, hr, hpc]⟩
    | some inner =>
      cases hs : List.lookup "storage" config with
      | none =>
        exact Or.inl ⟨"None", by simp only [store_storage_type, lookup_opt, hr, hpc, hs]⟩
      | some s0 =>
        cases hi : List.lookup s0 inner with
        | none =>
          exact Or.inl ⟨s0, by simp only [store_storage_type, lookup_opt, hr, hpc, hs, hi]⟩
        | some opts =>
          refine Or.inr ⟨List.lookup "type" opts, ?_⟩
          simp only [store_storage_type, lookup_opt, hr, hpc, hs, hi]
          simp

/-- C10 is refuted by the code: taking the table-does-not-exist branch
extends the class-level default column list with the dataframe columns (the
local ddl_cols aliases the class attribute), so a first call grows the
attribute from three entries to four, and a second call for another table
starts from the polluted list and builds its DDL on top of the first
dataframe's column. -/
theorem create_table_mutates_class_defaults :
    (create_table_if_needed rds_default_cols_init false "myscheme" "t1"
        [("x", PandasDtype.intLike)] none none).rds_default_cols =
      rds_default_cols_init ++ ["  x BIGINT"] ∧
    (create_table_if_needed (rds_default_cols_init ++ ["  x BIGINT"]) false "myscheme" "t2"
        [("y", PandasDtype.floatLike)] none none).rds_default_cols =
      rds_default_cols_init ++ ["  x BIGINT", "  y DOUBLE"] ∧
    rds_default_cols_init.length = 3 ∧
    (rds_default_cols_init ++ ["  x BIGINT"]).length = 4 :=
  ⟨rfl, rfl, rfl, rfl⟩


/-- C3: AttachmentSpec.to_sql renders the base ATTACH form with the quoted
path, appends the alias clause exactly when an alias is present, and appends
the parenthesized option clause exactly when read_only or type is set, with
TYPE before READ_ONLY and a comma only when both are present; the five
literal examples of the unit tests hold. -/
theorem attachment_to_sql_cases :
    (∀ a : Attachment, Attachment.to_sql a =
      "ATTACH \x27" ++ a.path ++ "\x27" ++
      (match a.«alias» with
       | some al => " AS " ++ al
       | none => "") ++
      (match a.type, a.read_only with
       | some t, true => " (TYPE " ++ t ++ ", READ_ONLY)"
       | some t, false => " (TYPE " ++ t ++ ")"
       | none, true => " (READ_ONLY)"
       | none, false => "")) ∧
    Attachment.to_sql ⟨"/tmp/f1234.db", none, false, none⟩ =
      "ATTACH \x27/tmp/f1234.db\x27" ∧
    Attachment.to_sql ⟨"/tmp/g1234.db", some "g", false, none⟩ =
      "ATTACH \x27/tmp/g1234.db\x27 AS g" ∧
    Attachment.to_sql ⟨"/tmp/h5678.db", none, true, none⟩ =
      "ATTACH \x27/tmp/h5678.db\x27 (READ_ONLY)" ∧
    Attachment.to_sql ⟨"/tmp/i9101.db", none, false, some "sqlite"⟩ =
      "ATTACH \x27/tmp/i9101.db\x27 (TYPE sqlite)" ∧
    Attachment.to_sql ⟨"/tmp/jklm.db", some "jk", true, some "sqlite"⟩ =
      "ATTACH \x27/tmp/jklm.db\x27 AS jk (TYPE sqlite, READ_ONLY)" := by
  refine ⟨?_, rfl, rfl, rfl, rfl, rfl⟩
  intro a
  obtain ⟨p, al, ro, ty⟩ := a
  cases al <;> cases ty <;> cases ro <;>
    simp only [Attachment.to_sql, join_with, if_true, if_false, List.foldl_cons,
      List.foldl_nil, List.nil_append, List.cons_append, String.append_empty,
      String.append_assoc] <;>
    rfl

/-- C2: SecretSpec.to_sql is a pure function of the validated spec and its
output is fully characterized: empty name opens CREATE SECRET, non-empty
name opens CREATE OR REPLACE SECRET with the name, followed by the type
line with the upper-cased type value and then the rendered field lines; the
two concrete secret-rendering unit tests hold. -/
theorem secret_to_sql_shape :
    (∀ s : SecretSpec, SecretSpec.to_sql s =
      (if s.name = "" then "CREATE SECRET ("
       else "CREATE OR REPLACE SECRET " ++ s.name ++ " (") ++
      "\n    type " ++ str_upper s.type.sqlName ++ s.field_lines ++ "\n)") ∧
    (SecretSpec.construct [("type", "s3"), ("name", ""), ("key_id", "abc"),
        ("secret", "xyz"), ("region", "us-west-2")]).map SecretSpec.to_sql =
      Except.ok "CREATE SECRET (\n    type S3,\n    key_id abc,\n    secret xyz,\n    region us-west-2\n)" ∧
    (SecretSpec.construct [("type", "s3"), ("name", "my_secret"), ("key_id", "abc"),
        ("secret", "xyz"), ("region", "us-west-2")]).map SecretSpec.to_sql =
      Except.ok "CREATE OR REPLACE SECRET my_secret (\n    type S3,\n    key_id abc,\n    secret xyz,\n    region us-west-2\n)" := by
  refine ⟨?_, rfl, rfl⟩
  intro s
  simp only [SecretSpec.to_sql, SecretSpec.field_lines, join_with_cons, List.map_map]
  by_cases hn : s.name = ""
  · simp only [if_pos hn]
    simp only [String.append_assoc]
    rfl
  · simp only [if_neg hn]
    simp only [String.append_assoc]
    rfl


theorem transform_value_azure (k v : String) :
    transform_value SecretType.AZURE k v =
      if k = "provider" then str_upper v else v := by
  rw [transform_value]
  by_cases h : k = "provider"
  · rw [if_pos ⟨rfl, h⟩, if_pos h]
  · rw [if_neg (fun hc => h hc.2), if_neg h]

/-- C6: for every validated AZURE secret, to_sql emits the present fields
in exactly the fixed order provider, account_name, tenant_id, client_id,
client_certificate_path, omitting absent fields, with the type value
upper-cased, the provider value upper-cased and every other value emitted
verbatim; the concrete AZURE rendering unit test holds. -/
theorem azure_to_sql_field_order :
    (∀ (nm : String) (fields : List (String × String)),
      SecretSpec.to_sql ⟨SecretType.AZURE, nm, fields⟩ =
        (if nm = "" then "CREATE SECRET ("
         else "CREATE OR REPLACE SECRET " ++ nm ++ " (") ++
        "\n    type AZURE" ++
        String.join ((azure_field_order.filterMap
            (fun k => (List.lookup k fields).map (fun v => (k, v)))).map
          (fun kv => ",\n    " ++ (kv.1 ++ " " ++
            (if kv.1 = "provider" then str_upper kv.2 else kv.2)))) ++
        "\n)") ∧
    (SecretSpec.construct [("type", "azure"), ("name", ""),
        ("provider", "service_principal"), ("tenant_id", "abc"), ("client_id", "xyz"),
        ("client_certificate_path", "foo\\bar\\baz"),
        ("account_name", "123")]).map SecretSpec.to_sql =
      Except.ok "CREATE SECRET (\n    type AZURE,\n    provider SERVICE_PRINCIPAL,\n    account_name 123,\n    tenant_id abc,\n    client_id xyz,\n    client_certificate_path foo\\bar\\baz.pem\n)" := by
  refine ⟨?_, rfl⟩
  intro nm fields
  simp only [SecretSpec.to_sql, SecretSpec.ordered_fields, join_with_cons,
    List.map_map, transform_value_azure]
  by_cases hn : nm = ""
  · simp only [if_pos hn]
    simp only [String.append_assoc]
    rfl
  · simp only [if_neg hn]
    simp only [String.append_assoc]
    rfl

/-- C1: constructing a SecretSpec from a raw mapping whose type key is
absent or unsupported, or which supplies a field key outside the allow-list
of its type, fails with a ValidationError at construction time, producing
no spec at all. -/
theorem secret_construct_rejects_invalid (raw : RawMap)
    (h : bad_secret_raw raw = true) :
    ∃ e, SecretSpec.construct raw = Except.error e := by
  cases ht : List.lookup "type" raw with
  | none =>
    exact ⟨ValidationError.missingType, by simp only [SecretSpec.construct, ht]⟩
  | some t =>
    cases hp : parseSecretType t with
    | none =>
      exact ⟨ValidationError.unsupportedType t,
        by simp only [SecretSpec.construct, ht, hp]⟩
    | some ty =>
      simp only [bad_secret_raw, ht, hp] at h
      obtain ⟨kv, hmem, hpred⟩ := List.any_eq_true.mp h
      rw [Bool.and_eq_true] at hpred
      obtain ⟨hspec, hallow⟩ := hpred
      have hmemf : kv ∈ raw.filter (fun kv => !(specialKeys.contains kv.1)) :=
        List.mem_filter.mpr ⟨hmem, hspec⟩
      have hfind : ((raw.filter (fun kv => !(specialKeys.contains kv.1))).find?
          (fun kv => !(ty.allowedFields.contains kv.1))).isSome :=
        List.find?_isSome.mpr ⟨kv, hmemf, hallow⟩
      obtain ⟨kv2, hkv2⟩ := Option.isSome_iff_exists.mp hfind
      exact ⟨ValidationError.disallowedField kv2.1,
        by simp only [SecretSpec.construct, ht, hp, hkv2]⟩

/-- Witness for C1: the unsupported-type raw mapping of the unit tests is
rejected at construction time. -/
theorem secret_construct_rejects_invalid_witness :
    bad_secret_raw [("type", "scrooge_mcduck"), ("name", "money")] = true ∧
    ∃ e, SecretSpec.construct [("type", "scrooge_mcduck"), ("name", "money")] =
      Except.error e :=
  ⟨rfl, secret_construct_rejects_invalid _ rfl⟩


/-- C5: for every AZURE secret constructed with provider service_principal
and a supplied client_certificate_path, the stored path is the supplied
value with .pem appended when the suffix is missing, and the unchanged
value when it already ends in .pem; the normalization happens at
construction, in the stored fields. -/
theorem azure_cert_path_normalized (raw : RawMap) (s : SecretSpec) (p : String)
    (hok : SecretSpec.construct raw = Except.ok s)
    (hty : List.lookup "type" raw = some "azure")
    (hprov : List.lookup "provider" raw = some "service_principal")
    (hcert : List.lookup "client_certificate_path" raw = some p) :
    List.lookup "client_certificate_path" s.fields =
      some (if ends_with p ".pem" then p else p ++ ".pem") := by
  have hparse : parseSecretType "azure" = some SecretType.AZURE := rfl
  have hprovf : List.lookup "provider"
      (raw.filter (fun kv => !(specialKeys.contains kv.1))) = some "service_principal" :=
    (lookup_filter_keep _ "provider" (fun _ => rfl) raw).trans hprov
  have hcertf : List.lookup "client_certificate_path"
      (raw.filter (fun kv => !(specialKeys.contains kv.1))) = some p :=
    (lookup_filter_keep _ "client_certificate_path" (fun _ => rfl) raw).trans hcert
  simp only [SecretSpec.construct, hty, hparse] at hok
  cases hfind : (raw.filter (fun kv => !(specialKeys.contains kv.1))).find?
      (fun kv => !(SecretType.AZURE.allowedFields.contains kv.1)) with
  | some kv =>
    simp only [hfind] at hok
    exact Except.noConfusion hok
  | none =>
    simp only [hfind] at hok
    rw [if_pos ⟨by trivial, hprovf⟩] at hok
    injection hok with hs
    rw [← hs]
    have hfuneq : (fun kv : String × String =>
        if kv.1 = "client_certificate_path" then (kv.1, normalize_cert_path kv.2) else kv) =
        (fun kv : String × String =>
          (kv.1, if kv.1 = "client_certificate_path" then normalize_cert_path kv.2 else kv.2)) := by
      funext kv
      by_cases hc : kv.1 = "client_certificate_path"
      · rw [if_pos hc, if_pos hc]
      · rw [if_neg hc, if_neg hc]
    rw [hfuneq,
      lookup_map_values
        (fun k v => if k = "client_certificate_path" then normalize_cert_path v else v)
        "client_certificate_path" _,
      hcertf]
    simp [normalize_cert_path]

/-- Witness for C5: the AZURE service_principal raw mapping of the unit
tests stores the certificate path with .pem appended. -/
theorem azure_cert_path_normalized_witness :
    SecretSpec.construct [("type", "azure"), ("name", ""),
        ("provider", "service_principal"), ("tenant_id", "abc"), ("client_id", "xyz"),
        ("client_certificate_path", "foo\\bar\\baz"), ("account_name", "123")] =
      Except.ok ⟨SecretType.AZURE, "",
        [("provider", "service_principal"), ("tenant_id", "abc"), ("client_id", "xyz"),
         ("client_certificate_path", "foo\\bar\\baz.pem"), ("account_name", "123")]⟩ ∧
    List.lookup "client_certificate_path"
        (SecretSpec.mk SecretType.AZURE ""
          [("provider", "service_principal"), ("tenant_id", "abc"), ("client_id", "xyz"),
           ("client_certificate_path", "foo\\bar\\baz.pem"),
           ("account_name", "123")]).fields =
      some "foo\\bar\\baz.pem" :=
  ⟨rfl,
    azure_cert_path_normalized
      [("type", "azure"), ("name", ""), ("provider", "service_principal"),
       ("tenant_id", "abc"), ("client_id", "xyz"),
       ("client_certificate_path", "foo\\bar\\baz"), ("account_name", "123")]
      ⟨SecretType.AZURE, "",
        [("provider", "service_principal"), ("tenant_id", "abc"), ("client_id", "xyz"),
         ("client_certificate_path", "foo\\bar\\baz.pem"), ("account_name", "123")]⟩
      "foo\\bar\\baz" rfl rfl rfl rfl⟩

/-- C7: with provider aws and an ambient identity yielding the triple of
access key, secret key and session token, load_settings succeeds with a
mapping whose three s3 session keys carry the ambient values (the provider
wins for those three keys) and which preserves every other stored key
unchanged. -/
theorem load_settings_aws_resolution (st : Settings) (ak sk tok k : String)
    (hk : ¬ k ∈ ["s3_access_key_id", "s3_secret_access_key", "s3_session_token"]) :
    ∃ r, load_settings ⟨st, some "aws"⟩ (some (ak, sk, tok)) = Except.ok r ∧
      List.lookup "s3_access_key_id" r = some (SettingValue.str ak) ∧
      List.lookup "s3_secret_access_key" r = some (SettingValue.str sk) ∧
      List.lookup "s3_session_token" r = some (SettingValue.str tok) ∧
      List.lookup k r = List.lookup k st := by
  simp only [List.mem_cons, List.not_mem_nil, or_false, not_or] at hk
  obtain ⟨h1, h2, h3⟩ := hk
  refine ⟨_, rfl, ?_, ?_, ?_, ?_⟩
  · rw [lookup_upsert_other _ _ _ _ (by decide),
      lookup_upsert_other _ _ _ _ (by decide), lookup_upsert_self]
  · rw [lookup_upsert_other _ _ _ _ (by decide), lookup_upsert_self]
  · rw [lookup_upsert_self]
  · rw [lookup_upsert_other _ _ _ _ h3, lookup_upsert_other _ _ _ _ h2,
      lookup_upsert_other _ _ _ _ h1]

/-- Witness for C7: the aws-provider unit-test fixture, with a stored
unrelated setting, resolves to the ambient triple and preserves the
unrelated setting. -/
theorem load_settings_aws_resolution_witness :
    (¬ "some_other_setting" ∈
        ["s3_access_key_id", "s3_secret_access_key", "s3_session_token"]) ∧
    ∃ r, load_settings ⟨[("some_other_setting", SettingValue.int 1)], some "aws"⟩
          (some ("access_key", "secret_key", "token")) = Except.ok r ∧
        List.lookup "s3_access_key_id" r = some (SettingValue.str "access_key") ∧
        List.lookup "s3_secret_access_key" r = some (SettingValue.str "secret_key") ∧
        List.lookup "s3_session_token" r = some (SettingValue.str "token") ∧
        List.lookup "some_other_setting" r =
          List.lookup "some_other_setting" [("some_other_setting", SettingValue.int 1)] :=
  ⟨by decide,
    load_settings_aws_resolution [("some_other_setting", SettingValue.int 1)]
      "access_key" "secret_key" "token" "some_other_setting" (by decide)⟩

end DbtDuckdb
